import Mathlib

/-!
Shallow embedding of the helpdesk Flask application (src/app.py).

The sqlite database is modelled as three in-memory tables (lists of rows);
each Flask route handler that the claims mention becomes a pure function
from the database (plus the session's user id and the request's form/query
fields) to the new database and an outcome value mirroring the handler's
flash/redirect branches.

Modelling conventions, stated once:
* werkzeug's generate_password_hash / check_password_hash are modelled as an
  ideal salted one-way hash: a hash value records the salt and is matched by
  exactly the hashed password.  Each call site receives the fresh salt as an
  explicit argument (the nondeterminism of salting made explicit).
* AUTOINCREMENT row ids and datetime.utcnow() timestamps are server-assigned;
  the fresh id and timestamp are passed as explicit arguments to the
  operations that insert rows.
* Python str.strip() and str.lower() are modelled structurally on the
  character list (pyStrip, pyLower), mirroring their behavior.
* sqlite runs with foreign keys unenforced (the default for the sqlite3
  module: the code never issues PRAGMA foreign_keys=ON), so inserts are not
  checked against the declared FOREIGN KEY clauses of SCHEMA_SQL.
* SQL ORDER BY id DESC / ASC is modelled by insertion sort under the
  corresponding relation on row ids.
-/

namespace Helpdesk

/-- Python str.strip(): drop leading and trailing whitespace, modelled
structurally on the character list. -/
def pyStrip (s : String) : String :=
  ⟨((s.data.dropWhile Char.isWhitespace).reverse.dropWhile Char.isWhitespace).reverse⟩

/-- Python str.lower(), modelled structurally on the character list. -/
def pyLower (s : String) : String :=
  ⟨s.data.map Char.toLower⟩

/-- Ideal model of a werkzeug salted password hash: the salt together with
the password it was derived from (standing in for the digest, so that
verification succeeds exactly on the original password). -/
structure PwHash where
  salt : Nat
  secret : String
deriving DecidableEq

/-- werkzeug generate_password_hash, with the fresh salt explicit. -/
def generate_password_hash (salt : Nat) (password : String) : PwHash :=
  ⟨salt, password⟩

/-- werkzeug check_password_hash: matches exactly the hashed password. -/
def check_password_hash (h : PwHash) (password : String) : Bool :=
  h.secret == password

/-- A row of the users table (SCHEMA_SQL). -/
structure UserRow where
  id : Nat
  name : String
  email : String
  password_hash : PwHash
  role : String
  created_at : String
deriving DecidableEq

/-- A row of the tickets table (SCHEMA_SQL). -/
structure TicketRow where
  id : Nat
  title : String
  description : String
  status : String
  department : String
  subcategory : String
  user_id : Nat
  created_at : String
deriving DecidableEq

/-- A row of the comments table (SCHEMA_SQL). -/
structure CommentRow where
  id : Nat
  ticket_id : Nat
  user_id : Nat
  body : String
  created_at : String
deriving DecidableEq

/-- The sqlite database: the three tables. -/
structure DB where
  users : List UserRow
  tickets : List TicketRow
  comments : List CommentRow
deriving DecidableEq

/-- DEPT_MAP: the static department/subcategory taxonomy constant. -/
def DEPT_MAP : List (String × List String) :=
  [("Suporte", ["Hardware", "Software", "Acesso/Senha", "Impressoras"]),
   ("Infra", ["Rede/Wi-Fi", "Servidores", "Backup", "VPN"]),
   ("Sistemas", ["ERP", "CRM", "BI/Relatórios", "Integrações"]),
   ("Financeiro", ["NF/Boletos", "Pagamentos", "Cadastro Fornecedor"])]

/-- The status set used by the handlers: {"aberto", "em andamento", "fechado"}
(open, in progress, closed). -/
def VALID_STATUSES : List String :=
  ["aberto", "em andamento", "fechado"]

/-- current_user(): SELECT ... FROM users WHERE id = session user_id. -/
def current_user (db : DB) (uid : Nat) : Option UserRow :=
  db.users.find? (fun u => u.id == uid)

/-- The test `user and user["role"] == "admin"` applied to the current user,
as it appears in ticket_view, ticket_update_status and ticket_add_comment. -/
def isAdminUser (db : DB) (uid : Nat) : Bool :=
  match current_user db uid with
  | some u => u.role == "admin"
  | none => false

/-- Outcome of the register handler: the three flash/redirect branches. -/
inductive RegisterResult
  | invalidInput
  | duplicateEmail
  | created
deriving DecidableEq

/-- The register route (POST): trims name, normalizes email (trim+lower),
rejects empty fields, relies on the UNIQUE(email) constraint for duplicates
(IntegrityError caught, table unchanged), otherwise inserts with the schema
default role 'cliente' and a salted password hash. -/
def register (db : DB) (nameForm emailForm password : String)
    (newId salt : Nat) (now : String) : DB × RegisterResult :=
  let name := pyStrip nameForm
  let email := pyLower (pyStrip emailForm)
  if name = "" ∨ email = "" ∨ password = "" then
    (db, .invalidInput)
  else if db.users.any (fun u => u.email == email) then
    (db, .duplicateEmail)
  else
    ({ db with users := db.users ++
        [⟨newId, name, email, generate_password_hash salt password, "cliente", now⟩] },
     .created)

/-- Outcome of the login handler. -/
inductive LoginResult
  | success (uid : Nat)
  | invalidCredentials
deriving DecidableEq

/-- The login route (POST): normalizes the email, looks the user up by email,
checks the password hash; on success the session is bound to the user id. -/
def login (db : DB) (emailForm password : String) : LoginResult :=
  let email := pyLower (pyStrip emailForm)
  match db.users.find? (fun u => u.email == email) with
  | some u =>
      if check_password_hash u.password_hash password then .success u.id
      else .invalidCredentials
  | none => .invalidCredentials

/-- Outcome of the profile_update_password handler. -/
inductive PasswordResult
  | mismatch
  | wrongCurrent
  | updated
deriving DecidableEq

/-- The profile/password route (POST): `if not new or new != new2` fails the
confirmation check; then the stored hash of the session user is checked
against `current`; on success the hash is replaced by a fresh salted hash. -/
def profile_update_password (db : DB) (uid : Nat) (current new new2 : String)
    (salt : Nat) : DB × PasswordResult :=
  if new = "" ∨ new ≠ new2 then
    (db, .mismatch)
  else
    match db.users.find? (fun u => u.id == uid) with
    | none => (db, .wrongCurrent)
    | some u =>
        if check_password_hash u.password_hash current then
          ({ db with users := db.users.map (fun v =>
              if v.id == uid then { v with password_hash := generate_password_hash salt new }
              else v) },
           .updated)
        else (db, .wrongCurrent)

/-- ORDER BY id DESC on ticket rows. -/
def byIdDesc (a b : TicketRow) : Prop :=
  b.id ≤ a.id

instance : DecidableRel byIdDesc :=
  fun a b => Nat.decLe b.id a.id

instance : IsTotal TicketRow byIdDesc :=
  ⟨fun a b => Nat.le_total b.id a.id⟩

instance : IsTrans TicketRow byIdDesc :=
  ⟨fun _ _ _ h1 h2 => Nat.le_trans h2 h1⟩

/-- The /tickets route (GET): always scoped to the session user's tickets,
filtered by status only when the stripped query value is one of the three
valid statuses, ordered by id descending. -/
def tickets (db : DB) (uid : Nat) (statusArg : Option String) : List TicketRow :=
  let status := pyStrip (statusArg.getD "")
  if status ∈ VALID_STATUSES then
    List.insertionSort byIdDesc
      (db.tickets.filter (fun t => t.user_id == uid && t.status == status))
  else
    List.insertionSort byIdDesc
      (db.tickets.filter (fun t => t.user_id == uid))

/-- Outcome of the ticket_new handler. -/
inductive TicketNewResult
  | invalidInput
  | created
deriving DecidableEq

/-- The /tickets/novo route (POST): trims the four fields, rejects empty
ones, then inserts with status 'aberto'.  There is no check of subcategory
against DEPT_MAP (the taxonomy only populates the form's options). -/
def ticket_new (db : DB) (uid : Nat) (titleF descF deptF subcF : String)
    (newId : Nat) (now : String) : DB × TicketNewResult :=
  let title := pyStrip titleF
  let desc := pyStrip descF
  let dept := pyStrip deptF
  let subc := pyStrip subcF
  if title = "" ∨ desc = "" ∨ dept = "" ∨ subc = "" then
    (db, .invalidInput)
  else
    ({ db with tickets := db.tickets ++
        [⟨newId, title, desc, "aberto", dept, subc, uid, now⟩] },
     .created)

/-- A row of the comment join in ticket_view:
SELECT c.id, c.body, c.created_at, u.name, u.role. -/
structure CommentView where
  id : Nat
  body : String
  created_at : String
  name : String
  role : String
deriving DecidableEq

/-- ORDER BY c.id ASC on comment rows. -/
def cByIdAsc (a b : CommentRow) : Prop :=
  a.id ≤ b.id

instance : DecidableRel cByIdAsc :=
  fun a b => Nat.decLe a.id b.id

/-- The comment query of ticket_view: comments of the ticket, ordered by id
ascending, joined with their author rows. -/
def comments_for (db : DB) (ticket_id : Nat) : List CommentView :=
  (List.insertionSort cByIdAsc
      (db.comments.filter (fun c => c.ticket_id == ticket_id))).flatMap
    (fun c => (db.users.filter (fun u => u.id == c.user_id)).map
      (fun u => ⟨c.id, c.body, c.created_at, u.name, u.role⟩))

/-- Outcome of the ticket_view handler: either the not-found flash/redirect,
or the rendered ticket with its comment thread. -/
inductive ViewResult
  | notFound
  | shown (t : TicketRow) (comments : List CommentView)
deriving DecidableEq

/-- The /tickets/id route (GET): admins select by id alone, everyone else by
id AND user_id; an empty result gives the same not-found outcome whether the
ticket is absent or owned by someone else. -/
def ticket_view (db : DB) (uid : Nat) (ticket_id : Nat) : ViewResult :=
  let t? :=
    if isAdminUser db uid then
      db.tickets.find? (fun t => t.id == ticket_id)
    else
      db.tickets.find? (fun t => t.id == ticket_id && t.user_id == uid)
  match t? with
  | none => .notFound
  | some t => .shown t (comments_for db ticket_id)

/-- Outcome of the ticket_update_status handler: the invalid-status flash, or
the unconditional "Status atualizado." success flash. -/
inductive StatusUpdateResult
  | invalidStatus
  | updated
deriving DecidableEq

/-- The /tickets/id/status route (POST): the form value (default "aberto")
is stripped and checked against the three valid statuses; then admins run an
UPDATE guarded only by id, others an UPDATE guarded by id AND user_id, and
the success flash is emitted regardless of how many rows matched. -/
def ticket_update_status (db : DB) (uid : Nat) (ticket_id : Nat)
    (statusForm : Option String) : DB × StatusUpdateResult :=
  let new_status := pyStrip (statusForm.getD "aberto")
  if new_status ∉ VALID_STATUSES then
    (db, .invalidStatus)
  else if isAdminUser db uid then
    ({ db with tickets := db.tickets.map (fun t =>
        if t.id == ticket_id then { t with status := new_status } else t) },
     .updated)
  else
    ({ db with tickets := db.tickets.map (fun t =>
        if t.id == ticket_id && t.user_id == uid then { t with status := new_status } else t) },
     .updated)

/-- Outcome of the ticket_add_comment handler. -/
inductive CommentResult
  | emptyBody
  | forbidden
  | added
deriving DecidableEq

/-- The /tickets/id/comments route (POST): empty body rejected; admins are
allowed unconditionally (no existence check on the ticket), others only when
they own a ticket with that id; the insert is not checked against the
(unenforced) FOREIGN KEY(ticket_id) clause. -/
def ticket_add_comment (db : DB) (uid : Nat) (ticket_id : Nat)
    (bodyForm : Option String) (newId : Nat) (now : String) : DB × CommentResult :=
  let body := pyStrip (bodyForm.getD "")
  if body = "" then
    (db, .emptyBody)
  else
    let allowed :=
      if isAdminUser db uid then true
      else (db.tickets.find? (fun t => t.id == ticket_id && t.user_id == uid)).isSome
    if allowed then
      ({ db with comments := db.comments ++ [⟨newId, ticket_id, uid, body, now⟩] },
       .added)
    else
      (db, .forbidden)

/-- A row of the admin console join:
SELECT t.id, t.title, t.status, t.created_at, t.department, t.subcategory,
u.name as author_name, u.email as author_email. -/
structure AdminTicketRow where
  id : Nat
  title : String
  status : String
  created_at : String
  department : String
  subcategory : String
  author_name : String
  author_email : String
deriving DecidableEq

/-- ORDER BY t.id DESC on admin console rows. -/
def aByIdDesc (a b : AdminTicketRow) : Prop :=
  b.id ≤ a.id

instance : DecidableRel aByIdDesc :=
  fun a b => Nat.decLe b.id a.id

instance : IsTotal AdminTicketRow aByIdDesc :=
  ⟨fun a b => Nat.le_total b.id a.id⟩

instance : IsTrans AdminTicketRow aByIdDesc :=
  ⟨fun _ _ _ h1 h2 => Nat.le_trans h2 h1⟩

/-- The /admin/tickets route (GET), reached only by admins: all tickets
joined with their authors, with the status WHERE clause added only when the
stripped query value is one of the three valid statuses, ordered by t.id
descending. -/
def admin_tickets (db : DB) (statusArg : Option String) : List AdminTicketRow :=
  let status := pyStrip (statusArg.getD "")
  let joined := db.tickets.flatMap (fun t =>
    (db.users.filter (fun u => u.id == t.user_id)).map (fun u =>
      ⟨t.id, t.title, t.status, t.created_at, t.department, t.subcategory, u.name, u.email⟩))
  let rows := if status ∈ VALID_STATUSES
    then joined.filter (fun r => r.status == status)
    else joined
  List.insertionSort aByIdDesc rows

/-! ### Helper lemmas -/

/-- The owner guard `id = ? AND user_id = ?` is false on a row that is not
that owned ticket. -/
lemma owner_guard_false (t : TicketRow) (i uid : Nat)
    (h : ¬(t.id = i ∧ t.user_id = uid)) :
    (t.id == i && t.user_id == uid) = false := by
  by_cases h1 : t.id = i
  · by_cases h2 : t.user_id = uid
    · exact absurd ⟨h1, h2⟩ h
    · simp [h2]
  · simp [h1]

/-- The guarded UPDATE of ticket_update_status, run by a non-admin who owns
no ticket with the requested id, matches zero rows and leaves the tickets
table unchanged. -/
lemma status_map_noop (l : List TicketRow) (i uid : Nat) (ns : String)
    (h : ∀ t ∈ l, ¬(t.id = i ∧ t.user_id = uid)) :
    l.map (fun t => if t.id == i && t.user_id == uid then { t with status := ns } else t) = l := by
  have h1 : ∀ t ∈ l,
      (fun t => if t.id == i && t.user_id == uid then { t with status := ns } else t) t = id t := by
    intro t ht
    simp [owner_guard_false t i uid (h t ht)]
  rw [List.map_congr_left h1, List.map_id]

/-! ### Claim C10 -/

/-- Example database for C10: two clients; user 1 owns the only ticket. -/
def dbC10 : DB :=
  ⟨[⟨1, "Ana", "ana@x.com", ⟨0, "s1"⟩, "cliente", "d1"⟩,
    ⟨2, "Bruno", "bruno@x.com", ⟨0, "s2"⟩, "cliente", "d1"⟩],
   [⟨1, "Sem rede", "PC sem rede", "aberto", "Infra", "Rede/Wi-Fi", 1, "d2"⟩],
   []⟩

/-- Claim C10: for a logged-in non-admin user and a ticket id for which the
user owns no ticket (the ticket is absent or owned by someone else), the
status-update handler leaves the whole database unchanged: its guarded
UPDATE matches zero rows, and neither the users table nor the comments
table is touched. -/
theorem status_update_frame (db : DB) (uid i : Nat) (s : Option String)
    (hadmin : isAdminUser db uid = false)
    (hown : ∀ t ∈ db.tickets, ¬(t.id = i ∧ t.user_id = uid)) :
    (ticket_update_status db uid i s).1 = db := by
  unfold ticket_update_status
  by_cases hv : pyStrip (s.getD "aberto") ∈ VALID_STATUSES
  · simp only [hv, not_true_eq_false, if_false, hadmin, Bool.false_eq_true, if_true, ite_false]
    rw [status_map_noop db.tickets i uid _ hown]
  · simp [hv]

/-- Witness for C10: user 2 (a non-admin who does not own ticket 1) posts a
status update on ticket 1; the database is unchanged. -/
theorem status_update_frame_witness :
    (ticket_update_status dbC10 2 1 (some "fechado")).1 = dbC10 :=
  status_update_frame dbC10 2 1 (some "fechado") (by decide) (by decide)

/-! ### Claim C3 -/

/-- Example database for C3: two clients; user 1 owns the only ticket. -/
def dbC3 : DB :=
  ⟨[⟨1, "Ana", "ana@x.com", ⟨0, "s1"⟩, "cliente", "d1"⟩,
    ⟨2, "Bruno", "bruno@x.com", ⟨0, "s2"⟩, "cliente", "d1"⟩],
   [⟨1, "Sem rede", "PC sem rede", "aberto", "Infra", "Rede/Wi-Fi", 1, "d2"⟩],
   []⟩

/-- Claim C3: for a non-admin user, ticket_view yields the not-found outcome
whenever the user owns no ticket with the requested id — which covers both
the case where no such ticket exists and the case where it exists but
belongs to someone else — and the two cases produce the very same
ViewResult.notFound value, so the caller cannot distinguish them. -/
theorem ticket_view_notFound_uniform (db : DB) (uid i : Nat)
    (hadmin : isAdminUser db uid = false)
    (hown : ∀ t ∈ db.tickets, ¬(t.id = i ∧ t.user_id = uid)) :
    ticket_view db uid i = .notFound := by
  unfold ticket_view
  simp only [hadmin, Bool.false_eq_true, if_false, ite_false]
  have hfind : db.tickets.find? (fun t => t.id == i && t.user_id == uid) = none := by
    rw [List.find?_eq_none]
    intro t ht
    simp [owner_guard_false t i uid (hown t ht)]
  simp [hfind]

/-- Witness for C3: user 2 requests ticket 1 (which exists but belongs to
user 1) and ticket 99 (which does not exist); both give notFound. -/
theorem ticket_view_notFound_uniform_witness :
    ticket_view dbC3 2 1 = .notFound ∧ ticket_view dbC3 2 99 = .notFound :=
  ⟨ticket_view_notFound_uniform dbC3 2 1 (by decide) (by decide),
   ticket_view_notFound_uniform dbC3 2 99 (by decide) (by decide)⟩

/-! ### Claim C6 -/

/-- Example tickets for C6: user 1 owns tickets 1 and 2, user 2 owns 3. -/
def tC6a : TicketRow := ⟨1, "A", "a", "aberto", "Suporte", "Hardware", 1, "d"⟩

def tC6b : TicketRow := ⟨2, "B", "b", "fechado", "Suporte", "Software", 1, "d"⟩

def tC6c : TicketRow := ⟨3, "C", "c", "aberto", "Infra", "VPN", 2, "d"⟩

def dbC6 : DB :=
  ⟨[⟨1, "Ana", "ana@x.com", ⟨0, "s1"⟩, "cliente", "d1"⟩,
    ⟨2, "Bruno", "bruno@x.com", ⟨0, "s2"⟩, "cliente", "d1"⟩],
   [tC6a, tC6b, tC6c],
   []⟩

/-- Claim C6: for a non-admin user, the /tickets listing contains exactly
the tickets owned by that user — further restricted to the requested status
when the (stripped) filter value is one of the three valid statuses — and
the rows are ordered by ticket id descending (newest first). -/
theorem tickets_scoped_sorted (db : DB) (uid : Nat) (arg : Option String)
    (_hadmin : isAdminUser db uid = false) :
    (∀ t, t ∈ tickets db uid arg ↔
        (t ∈ db.tickets ∧ t.user_id = uid ∧
          (pyStrip (arg.getD "") ∈ VALID_STATUSES → t.status = pyStrip (arg.getD "")))) ∧
    (tickets db uid arg).Pairwise (fun a b : TicketRow => b.id ≤ a.id) := by
  constructor
  · intro t
    simp only [tickets]
    by_cases hv : pyStrip (arg.getD "") ∈ VALID_STATUSES
    · rw [if_pos hv]
      simp only [List.mem_insertionSort, List.mem_filter, Bool.and_eq_true, beq_iff_eq]
      tauto
    · rw [if_neg hv]
      simp only [List.mem_insertionSort, List.mem_filter, beq_iff_eq]
      tauto
  · simp only [tickets]
    by_cases hv : pyStrip (arg.getD "") ∈ VALID_STATUSES
    · rw [if_pos hv]
      exact List.sorted_insertionSort byIdDesc _
    · rw [if_neg hv]
      exact List.sorted_insertionSort byIdDesc _

/-- Witness for C6: user 1's unfiltered listing, instantiated at ticket 1,
plus the descending-order fact. -/
theorem tickets_scoped_sorted_witness :
    (tC6a ∈ tickets dbC6 1 none ↔
        (tC6a ∈ dbC6.tickets ∧ tC6a.user_id = 1 ∧
          (pyStrip ((none : Option String).getD "") ∈ VALID_STATUSES →
            tC6a.status = pyStrip ((none : Option String).getD "")))) ∧
    (tickets dbC6 1 none).Pairwise (fun a b : TicketRow => b.id ≤ a.id) :=
  ⟨(tickets_scoped_sorted dbC6 1 none (by decide)).1 tC6a,
   (tickets_scoped_sorted dbC6 1 none (by decide)).2⟩

/-! ### Claim C7 -/

/-- Example database for C7: user 1 owns an open ticket and a closed one. -/
def dbC7 : DB :=
  ⟨[⟨1, "Ana", "ana@x.com", ⟨0, "s1"⟩, "cliente", "d1"⟩],
   [⟨1, "A", "a", "aberto", "Suporte", "Hardware", 1, "d"⟩,
    ⟨2, "B", "b", "fechado", "Suporte", "Software", 1, "d"⟩],
   []⟩

/-- Counterexample to C7 as stated: the filter value " aberto " (padded with
spaces) is not one of the three valid statuses, yet the listing is NOT the
same as the unfiltered one — the handler strips the value first, recognizes
"aberto", and filters by it. -/
theorem tickets_padded_filter_differs :
    " aberto " ∉ VALID_STATUSES ∧
    tickets dbC7 1 (some " aberto ") ≠ tickets dbC7 1 none ∧
    admin_tickets dbC7 (some " aberto ") ≠ admin_tickets dbC7 none := by decide

/-- Amended C7: for every filter value whose stripped form is not one of the
three valid statuses (e.g. "bogus"), the /tickets listing equals the
unfiltered listing with no error, and the same holds for /admin/tickets. -/
theorem tickets_unrecognized_filter_ignored (db : DB) (uid : Nat) (s : String)
    (hs : pyStrip s ∉ VALID_STATUSES) :
    tickets db uid (some s) = tickets db uid none ∧
    admin_tickets db (some s) = admin_tickets db none := by
  have h0 : pyStrip "" ∉ VALID_STATUSES := by decide
  constructor
  · simp only [tickets, Option.getD_some, Option.getD_none]
    rw [if_neg hs, if_neg h0]
  · simp only [admin_tickets, Option.getD_some, Option.getD_none]
    rw [if_neg hs, if_neg h0]

/-- Witness for amended C7: filter "bogus" behaves as no filter. -/
theorem tickets_unrecognized_filter_ignored_witness :
    tickets dbC7 1 (some "bogus") = tickets dbC7 1 none ∧
    admin_tickets dbC7 (some "bogus") = admin_tickets dbC7 none :=
  tickets_unrecognized_filter_ignored dbC7 1 "bogus" (by decide)

/-! ### Claim C1 -/

/-- Example database for C1: clients 1 and 2, admin 9; user 1 owns the only
ticket. -/
def dbC1 : DB :=
  ⟨[⟨1, "Ana", "ana@x.com", ⟨0, "s1"⟩, "cliente", "d1"⟩,
    ⟨2, "Bruno", "bruno@x.com", ⟨0, "s2"⟩, "cliente", "d1"⟩,
    ⟨9, "Administrador", "admin@local", ⟨0, "admin123"⟩, "admin", "d0"⟩],
   [⟨1, "Sem rede", "PC sem rede", "aberto", "Infra", "Rede/Wi-Fi", 1, "d2"⟩],
   []⟩

/-- Counterexample to C1 as stated: user 2 is logged in, is neither an admin
nor the owner of ticket 1, yet the status-update request does not fail with
any Forbidden outcome — the handler returns the very same success outcome
(flash "Status atualizado.") as a permitted update, having matched zero rows
with its guarded UPDATE. -/
theorem nonowner_status_update_reports_success :
    ticket_update_status dbC1 2 1 (some "fechado") = (dbC1, .updated) := by decide

/-- Amended C1: a status-update with a valid target status by a logged-in
non-admin who owns no ticket with the requested id leaves the database
unchanged but still reports the success outcome (no Forbidden error is
surfaced), while the same request by an admin succeeds: it reports success
and the targeted ticket appears with the new status. -/
theorem status_update_policy (db : DB) (uid tid : Nat) (s : String)
    (hs : pyStrip s ∈ VALID_STATUSES) :
    (isAdminUser db uid = false →
      (∀ t ∈ db.tickets, ¬(t.id = tid ∧ t.user_id = uid)) →
      ticket_update_status db uid tid (some s) = (db, .updated)) ∧
    (isAdminUser db uid = true →
      (ticket_update_status db uid tid (some s)).2 = .updated ∧
      ∀ t ∈ db.tickets, t.id = tid →
        { t with status := pyStrip s } ∈ (ticket_update_status db uid tid (some s)).1.tickets) := by
  constructor
  · intro hadmin hown
    unfold ticket_update_status
    simp only [Option.getD_some]
    rw [if_neg (not_not_intro hs), if_neg (by simp [hadmin])]
    rw [status_map_noop db.tickets tid uid _ hown]
  · intro hadmin
    unfold ticket_update_status
    simp only [Option.getD_some]
    rw [if_neg (not_not_intro hs), if_pos hadmin]
    refine ⟨rfl, ?_⟩
    intro t ht h1
    refine List.mem_map.mpr ⟨t, ht, ?_⟩
    simp [h1]

/-- Witness for amended C1: non-owner user 2's request on ticket 1 changes
nothing yet reports success; admin 9's request on user 1's ticket succeeds. -/
theorem status_update_policy_witness :
    ticket_update_status dbC1 2 1 (some "fechado") = (dbC1, .updated) ∧
    (ticket_update_status dbC1 9 1 (some "fechado")).2 = .updated := by
  have h2 := status_update_policy dbC1 2 1 "fechado" (by decide)
  have h9 := status_update_policy dbC1 9 1 "fechado" (by decide)
  exact ⟨h2.1 (by decide) (by decide), (h9.2 (by decide)).1⟩

/-! ### Claim C4 -/

/-- Example ticket and database for C4: one client owning one open ticket. -/
def tC4 : TicketRow := ⟨1, "Sem rede", "PC sem rede", "aberto", "Infra", "Rede/Wi-Fi", 1, "d2"⟩

def dbC4 : DB :=
  ⟨[⟨1, "Ana", "ana@x.com", ⟨0, "s1"⟩, "cliente", "d1"⟩], [tC4], []⟩

/-- Counterexample to C4 as stated: the owner requests the new status
" fechado " (padded with spaces), which is not one of the three valid
values, yet the handler does not fail with the invalid-status outcome: it
strips the form value first, recognizes "fechado" and performs the update. -/
theorem status_update_padded_accepted :
    " fechado " ∉ VALID_STATUSES ∧
    ticket_update_status dbC4 1 1 (some " fechado ") =
      ({ dbC4 with tickets := [{ tC4 with status := "fechado" }] }, .updated) := by decide

/-- Amended C4: the status-update handler fails with the invalid-status
outcome iff the stripped form value is not one of the three valid statuses;
whenever the stripped value is one of the three, the request reports
success, and for an admin or the owner the targeted ticket takes the new
status whatever its current status was (all transitions allowed). -/
theorem status_update_valid_iff (db : DB) (uid tid : Nat) (s : String) :
    ((ticket_update_status db uid tid (some s)).2 = .invalidStatus ↔
        pyStrip s ∉ VALID_STATUSES) ∧
    (pyStrip s ∈ VALID_STATUSES →
      (ticket_update_status db uid tid (some s)).2 = .updated ∧
      ∀ t ∈ db.tickets, t.id = tid → (isAdminUser db uid = true ∨ t.user_id = uid) →
        { t with status := pyStrip s } ∈ (ticket_update_status db uid tid (some s)).1.tickets) := by
  constructor
  · unfold ticket_update_status
    simp only [Option.getD_some]
    by_cases hv : pyStrip s ∈ VALID_STATUSES
    · rw [if_neg (not_not_intro hv)]
      by_cases ha : isAdminUser db uid = true
      · rw [if_pos ha]
        simp [hv]
      · rw [if_neg ha]
        simp [hv]
    · rw [if_pos hv]
      simp [hv]
  · intro hv
    unfold ticket_update_status
    simp only [Option.getD_some]
    rw [if_neg (not_not_intro hv)]
    by_cases ha : isAdminUser db uid = true
    · rw [if_pos ha]
      refine ⟨rfl, ?_⟩
      intro t ht h1 _
      refine List.mem_map.mpr ⟨t, ht, ?_⟩
      simp [h1]
    · rw [if_neg ha]
      refine ⟨rfl, ?_⟩
      intro t ht h1 h2
      rcases h2 with h2 | h2
      · exact absurd h2 ha
      · refine List.mem_map.mpr ⟨t, ht, ?_⟩
        simp [h1, h2]

/-- Witness for amended C4: "xyz" is rejected as invalid; "em andamento" is
accepted, and the owner's open ticket moves to "em andamento". -/
theorem status_update_valid_iff_witness :
    (ticket_update_status dbC4 1 1 (some "xyz")).2 = .invalidStatus ∧
    (ticket_update_status dbC4 1 1 (some "em andamento")).2 = .updated ∧
    { tC4 with status := "em andamento" } ∈
      (ticket_update_status dbC4 1 1 (some "em andamento")).1.tickets := by
  have hx := (status_update_valid_iff dbC4 1 1 "xyz").1.mpr (by decide)
  have hv := (status_update_valid_iff dbC4 1 1 "em andamento").2 (by decide)
  refine ⟨hx, hv.1, ?_⟩
  have hm := hv.2 tC4 (by decide) (by decide) (Or.inr (by decide))
  exact (by decide : pyStrip "em andamento" = "em andamento") ▸ hm

/-! ### Claim C2 -/

/-- Example database for C2: one client, no tickets yet. -/
def dbC2 : DB :=
  ⟨[⟨1, "Ana", "ana@x.com", ⟨0, "s1"⟩, "cliente", "d1"⟩], [], []⟩

/-- Counterexample to C2 as stated: creating a ticket with department
"Suporte" and subcategory "Banana" — which is NOT in DEPT_MAP's list for
"Suporte" — succeeds and stores the ticket; the handler performs no
taxonomy validation at all (DEPT_MAP only populates the form options), so
no InvalidTaxonomy failure exists and the stored ticket violates
subcategory ∈ DEPT_MAP[department]. -/
theorem ticket_new_no_taxonomy_check :
    ticket_new dbC2 1 "Tela azul" "Erro ao ligar" "Suporte" "Banana" 1 "d2" =
      ({ dbC2 with tickets :=
          [⟨1, "Tela azul", "Erro ao ligar", "aberto", "Suporte", "Banana", 1, "d2"⟩] },
       .created) ∧
    "Banana" ∉ (DEPT_MAP.lookup "Suporte").getD [] := by decide

/-- Amended C2: ticket creation fails (with the invalid-input outcome) iff
one of the four stripped fields is empty; otherwise the ticket is stored
with exactly the given stripped department and subcategory and status
"aberto", with NO check of the subcategory against DEPT_MAP; and the stored
id/department/subcategory of tickets are never altered afterward by the
mutating ticket operations (status updates and comment creation). -/
theorem ticket_new_spec (db : DB) (uid : Nat) (titleF descF deptF subcF : String)
    (newId : Nat) (now : String) :
    ((ticket_new db uid titleF descF deptF subcF newId now).2 = .invalidInput ↔
        (pyStrip titleF = "" ∨ pyStrip descF = "" ∨ pyStrip deptF = "" ∨ pyStrip subcF = "")) ∧
    (¬(pyStrip titleF = "" ∨ pyStrip descF = "" ∨ pyStrip deptF = "" ∨ pyStrip subcF = "") →
      ticket_new db uid titleF descF deptF subcF newId now =
        ({ db with tickets := db.tickets ++
            [⟨newId, pyStrip titleF, pyStrip descF, "aberto", pyStrip deptF, pyStrip subcF, uid, now⟩] },
         .created)) ∧
    (∀ db2 uid2 tid s2,
      (ticket_update_status db2 uid2 tid s2).1.tickets.map
          (fun t => (t.id, t.department, t.subcategory)) =
        db2.tickets.map (fun t => (t.id, t.department, t.subcategory))) ∧
    (∀ db2 uid2 tid b2 cid n2,
      (ticket_add_comment db2 uid2 tid b2 cid n2).1.tickets = db2.tickets) := by
  refine ⟨?_, ?_, ?_, ?_⟩
  · unfold ticket_new
    by_cases he : (pyStrip titleF = "" ∨ pyStrip descF = "" ∨ pyStrip deptF = "" ∨ pyStrip subcF = "")
    · rw [if_pos he]
      simp [he]
    · rw [if_neg he]
      simp [he]
  · intro he
    unfold ticket_new
    rw [if_neg he]
  · intro db2 uid2 tid s2
    simp only [ticket_update_status]
    split
    · rfl
    · split
      · simp only [List.map_map]
        refine List.map_congr_left ?_
        intro t _
        simp only [Function.comp_apply]
        split <;> rfl
      · simp only [List.map_map]
        refine List.map_congr_left ?_
        intro t _
        simp only [Function.comp_apply]
        split <;> rfl
  · intro db2 uid2 tid b2 cid n2
    simp only [ticket_add_comment]
    split
    · rfl
    · split
      · rfl
      · split <;> rfl

/-- Witness for amended C2: a creation with non-empty fields stores the
stripped title and the given taxonomy values verbatim. -/
theorem ticket_new_spec_witness :
    ticket_new dbC2 1 " Impressora parada " "Sem toner" "Suporte" "Impressoras" 1 "d2" =
      ({ dbC2 with tickets :=
          [⟨1, "Impressora parada", "Sem toner", "aberto", "Suporte", "Impressoras", 1, "d2"⟩] },
       .created) := by
  have h := (ticket_new_spec dbC2 1 " Impressora parada " "Sem toner" "Suporte" "Impressoras"
      1 "d2").2.1 (by decide)
  exact h.trans (by decide)

/-! ### Claim C5 -/

/-- Example database for C5: only the seeded admin, and NO tickets. -/
def dbC5 : DB :=
  ⟨[⟨1, "Administrador", "admin@local", ⟨0, "admin123"⟩, "admin", "d0"⟩], [], []⟩

/-- C5 fails on the code: the admin path of ticket_add_comment never checks
that the parent ticket exists (only the non-admin path does), and the
FOREIGN KEY(ticket_id) clause declared in SCHEMA_SQL is not enforced by the
sqlite3 connection, so the admin comments on the nonexistent ticket 7 and a
dangling comment row is stored while the tickets table is empty. -/
theorem admin_comment_dangling_ticket :
    ticket_add_comment dbC5 1 7 (some "Olá") 1 "d1" =
      ({ dbC5 with comments := [⟨1, 7, 1, "Olá", "d1"⟩] }, .added) ∧
    dbC5.tickets = [] := by decide

/-! ### Claim C8 -/

/-- Example user and database for C8: one client whose stored credential is
the hash of "velha". -/
def uC8 : UserRow := ⟨1, "Ana", "ana@x.com", ⟨0, "velha"⟩, "cliente", "d1"⟩

def dbC8 : DB := ⟨[uC8], [], []⟩

/-- Counterexample to C8 as stated: with the correct current password and
new = confirm = "" the handler fails with the mismatch outcome ("Nova senha
não confere"), although the claim says changePassword(session, old, new,
new) succeeds for every new and reserves Mismatch for new ≠ confirm. -/
theorem change_password_empty_new_mismatch :
    profile_update_password dbC8 1 "velha" "" "" 7 = (dbC8, .mismatch) := by decide

/-- Amended C8: for a stored user whose credential matches `old` and any
NON-EMPTY `new`: changePassword(session, old, new, new) succeeds and
replaces the stored hash; afterwards authenticate(email, new) succeeds,
and authenticate(email, old) fails whenever old differs from new.
changePassword fails with the mismatch outcome when new ≠ confirm OR new is
empty, and with the wrong-current outcome when new = confirm is accepted
but the supplied current password does not match the stored hash. -/
theorem change_password_spec (db : DB) (u : UserRow) (old new : String) (salt : Nat)
    (hid : db.users.find? (fun v => v.id == u.id) = some u)
    (hem : db.users.find? (fun v => v.email == u.email) = some u)
    (hnorm : pyLower (pyStrip u.email) = u.email)
    (hold : check_password_hash u.password_hash old = true)
    (hne : new ≠ "") :
    (profile_update_password db u.id old new new salt).2 = .updated ∧
    login (profile_update_password db u.id old new new salt).1 u.email new = .success u.id ∧
    (new ≠ old →
      login (profile_update_password db u.id old new new salt).1 u.email old =
        .invalidCredentials) ∧
    (∀ c n n2 s2, (n = "" ∨ n ≠ n2) →
      (profile_update_password db u.id c n n2 s2).2 = .mismatch) ∧
    (∀ c s2, check_password_hash u.password_hash c = false →
      (profile_update_password db u.id c new new s2).2 = .wrongCurrent) := by
  have hupd : profile_update_password db u.id old new new salt =
      ({ db with users := db.users.map (fun v =>
          if v.id == u.id then { v with password_hash := generate_password_hash salt new }
          else v) },
       .updated) := by
    unfold profile_update_password
    rw [if_neg (by simp [hne])]
    simp only [hid]
    rw [if_pos hold]
  have hp : ((fun v : UserRow => v.email == u.email) ∘ (fun v =>
      if v.id == u.id then { v with password_hash := generate_password_hash salt new }
      else v)) = (fun v : UserRow => v.email == u.email) := by
    funext v
    by_cases h : (v.id == u.id) = true
    · simp [Function.comp, h]
    · simp [Function.comp, h]
  have hkey : (db.users.map (fun v =>
      if v.id == u.id then { v with password_hash := generate_password_hash salt new }
      else v)).find? (fun v => v.email == u.email) =
      some { u with password_hash := generate_password_hash salt new } := by
    rw [List.find?_map, hp, hem]
    simp
  have hlogin : ∀ pw, login (profile_update_password db u.id old new new salt).1 u.email pw =
      (if (new == pw) = true then .success u.id else .invalidCredentials) := by
    intro pw
    rw [hupd]
    unfold login
    dsimp only
    simp only [hnorm, hkey]
    rfl
  refine ⟨by rw [hupd], ?_, ?_, ?_, ?_⟩
  · rw [hlogin new]
    simp
  · intro hno
    rw [hlogin old]
    simp [hno]
  · intro c n n2 s2 h
    unfold profile_update_password
    rw [if_pos h]
  · intro c s2 hc
    unfold profile_update_password
    rw [if_neg (by simp [hne])]
    simp only [hid]
    rw [if_neg (by simp [hc])]

/-- Witness for amended C8: Ana changes "velha" to "nova"; afterwards login
with "nova" succeeds and login with "velha" is rejected. -/
theorem change_password_spec_witness :
    (profile_update_password dbC8 1 "velha" "nova" "nova" 7).2 = .updated ∧
    login (profile_update_password dbC8 1 "velha" "nova" "nova" 7).1 "ana@x.com" "nova" =
      .success 1 ∧
    login (profile_update_password dbC8 1 "velha" "nova" "nova" 7).1 "ana@x.com" "velha" =
      .invalidCredentials := by
  have h := change_password_spec dbC8 uC8 "velha" "nova" 7 (by decide) (by decide) (by decide)
    (by decide) (by decide)
  exact ⟨h.1, h.2.1, h.2.2.1 (by decide)⟩

/-! ### Claim C9 -/

/-- Example database for C9: "ana@x.com" is already registered. -/
def dbC9 : DB :=
  ⟨[⟨1, "Ana", "ana@x.com", ⟨0, "secret1"⟩, "cliente", "d1"⟩], [], []⟩

/-- Claim C9: register fails with the duplicate-email outcome — leaving the
users table unchanged — exactly when a user with the case-normalized email
already exists; it fails with the invalid-input outcome when a field is
empty; and on success the stored row has role "cliente" and carries only
the salted hash generate_password_hash(salt, password) as credential, never
the plaintext password itself (werkzeug hashing modelled as an ideal salted
hash). -/
theorem register_spec (db : DB) (nameF emailF pw : String) (newId salt : Nat) (now : String) :
    ((pyStrip nameF = "" ∨ pyLower (pyStrip emailF) = "" ∨ pw = "") →
      register db nameF emailF pw newId salt now = (db, .invalidInput)) ∧
    (¬(pyStrip nameF = "" ∨ pyLower (pyStrip emailF) = "" ∨ pw = "") →
      (∃ u ∈ db.users, u.email = pyLower (pyStrip emailF)) →
      register db nameF emailF pw newId salt now = (db, .duplicateEmail)) ∧
    (¬(pyStrip nameF = "" ∨ pyLower (pyStrip emailF) = "" ∨ pw = "") →
      (∀ u ∈ db.users, u.email ≠ pyLower (pyStrip emailF)) →
      register db nameF emailF pw newId salt now =
        ({ db with users := db.users ++
            [⟨newId, pyStrip nameF, pyLower (pyStrip emailF),
              generate_password_hash salt pw, "cliente", now⟩] },
         .created)) := by
  refine ⟨?_, ?_, ?_⟩
  · intro he
    unfold register
    rw [if_pos he]
  · intro he hdup
    rcases hdup with ⟨u, hu, hu2⟩
    unfold register
    rw [if_neg he, if_pos (List.any_eq_true.mpr ⟨u, hu, by simp [hu2]⟩)]
  · intro he hnone
    unfold register
    rw [if_neg he, if_neg ?_]
    intro hany
    rcases List.any_eq_true.mp hany with ⟨u, hu, hb⟩
    exact hnone u hu (by simpa using hb)

/-- Witness for C9: re-registering "ana@x.com" is rejected as duplicate with
the table unchanged; an empty name is rejected as invalid input; a fresh
email (normalized from " Bia@Y.com ") is stored with role "cliente" and the
salted hash of the password. -/
theorem register_spec_witness :
    register dbC9 "Ana" "ana@x.com" "secret1" 2 5 "d2" = (dbC9, .duplicateEmail) ∧
    register dbC9 "" "x@y.com" "s" 2 5 "d2" = (dbC9, .invalidInput) ∧
    register dbC9 "Bia" " Bia@Y.com " "s2" 2 5 "d2" =
      ({ dbC9 with users := dbC9.users ++ [⟨2, "Bia", "bia@y.com", ⟨5, "s2"⟩, "cliente", "d2"⟩] },
       .created) := by
  have h1 := (register_spec dbC9 "Ana" "ana@x.com" "secret1" 2 5 "d2").2.1 (by decide) (by decide)
  have h2 := (register_spec dbC9 "" "x@y.com" "s" 2 5 "d2").1 (by decide)
  have h3 := (register_spec dbC9 "Bia" " Bia@Y.com " "s2" 2 5 "d2").2.2 (by decide) (by decide)
  exact ⟨h1, h2, h3.trans (by decide)⟩

end Helpdesk
